import Mathlib

/-!
Verification of the LLM-client utility modules
(`llm_planning_analysis/utils/llm_client.py` and
`llm_planning_analysis/utils/openrouter_client.py`): the message-format
adapter, the response normalisers, and the environment-driven client
factories, shallowly embedded in Lean.
-/

set_option maxHeartbeats 1000000

namespace LLMClient

/-- A chat-style message, modelled as a Python dict that may or may not
carry the `role` and `content` keys (`message.get("role", "user")`,
`message.get("content", "")`). -/
structure Message where
  role : Option String
  content : Option String
deriving DecidableEq, Repr

/-- A normalised message as produced by the adapter: both fields present. -/
structure OutMessage where
  role : String
  content : String
deriving DecidableEq, Repr

/-- Effective role of a message: `message.get("role", "user")`. -/
def Message.roleD (m : Message) : String := m.role.getD "user"

/-- Effective content of a message: `message.get("content", "")`. -/
def Message.contentD (m : Message) : String := m.content.getD ""

/-- The loop body of `prepare_responses_messages`: walk the messages in
order, collecting system-role contents into `instructions_parts` and all
other messages into `conversation`. -/
def splitMessages : List Message → List String × List OutMessage
  | [] => ([], [])
  | m :: rest =>
    let r := splitMessages rest
    if m.roleD = "system" then (m.contentD :: r.1, r.2)
    else (r.1, ⟨m.roleD, m.contentD⟩ :: r.2)

/-- `prepare_responses_messages` from `llm_client.py`: collapse system
messages into one instruction string (joined by a blank line, `None` when
there are none), keep the rest as the conversation, and substitute a
single empty user message when the conversation would be empty. -/
def prepare_responses_messages (messages : List Message) :
    Option String × List OutMessage :=
  let r := splitMessages messages
  let instructions : Option String :=
    if r.1.isEmpty then none else some (String.intercalate "\n\n" r.1)
  let conversation : List OutMessage :=
    if r.2.isEmpty then [⟨"user", ""⟩] else r.2
  (instructions, conversation)

/-- Spec-level description of the instruction parts: the contents of the
messages whose role is `"system"`, in input order. -/
def systemContents (messages : List Message) : List String :=
  (messages.filter (fun m => m.roleD = "system")).map Message.contentD

/-- Spec-level description of the kept conversation: the non-system
messages, in input order, with role/content defaults applied. -/
def nonSystemMessages (messages : List Message) : List OutMessage :=
  (messages.filter (fun m => ¬ m.roleD = "system")).map
    (fun m => ⟨m.roleD, m.contentD⟩)

/-- Python truthiness of an optional string: `None` and `""` are falsy. -/
def pyTruthy : Option String → Bool
  | some t => t ≠ ""
  | none => false

/-- `a or b` on optional strings, evaluated the way Python does: the left
operand when it is truthy, the right operand (whatever it is) otherwise. -/
def pyOr (a b : Option String) : Option String :=
  if pyTruthy a then a else b

/-- `getattr(x, attr, []) or []`: a missing or `None` sequence attribute
collapses to the empty list. -/
def pyListD {α : Type} (o : Option (List α)) : List α := o.getD []

/-- A content item inside a Responses output message, with the optional
`type` and `text` attributes `extract_response_text` reads. -/
structure ContentItem where
  type : Option String
  text : Option String
deriving DecidableEq, Repr

/-- An output item of a Responses result, with the optional `type` and
`content` attributes `extract_response_text` reads. -/
structure OutputItem where
  type : Option String
  content : Option (List ContentItem)
deriving DecidableEq, Repr

/-- The parts of a Responses result that `extract_response_text` reads: an
optional precomputed `output_text` attribute and an optional `output`
list of items. -/
structure PyResponse where
  output_text : Option String
  output : Option (List OutputItem)
deriving DecidableEq, Repr

/-- `extract_response_text` from `llm_client.py`: return `output_text`
when it is truthy, otherwise accumulate, over the output items of type
`"message"`, the `text` of each content item of type `"output_text"`, and
join the collected parts. -/
def extract_response_text (r : PyResponse) : String :=
  if pyTruthy r.output_text then r.output_text.getD ""
  else
    let text_parts : List String :=
      (pyListD r.output).foldl (fun parts item =>
        if item.type ≠ some "message" then parts
        else (pyListD item.content).foldl (fun ps c =>
          if c.type = some "output_text" then ps ++ [c.text.getD ""] else ps)
          parts) []
    String.join text_parts

/-- Spec-level description of the texts contributed by one output item:
nothing unless it is tagged `"message"`, else the texts of its content
items tagged `"output_text"`, in order. -/
def messageTexts (item : OutputItem) : List String :=
  if item.type = some "message" then
    (pyListD item.content).filterMap
      (fun c => if c.type = some "output_text" then some (c.text.getD "") else none)
  else []

/-- Spec-level description of all collected texts of a response, in
encounter order. -/
def outputTexts (r : PyResponse) : List String :=
  ((pyListD r.output).map messageTexts).flatten

/-- A plain JSON-serialisable value, as far as the usage normalisation in
`response_to_dict` needs to distinguish values. -/
inductive PyVal where
  | null : PyVal
  | int : Int → PyVal
  | str : String → PyVal
deriving DecidableEq, Repr

/-- A Python dict with string keys, as an insertion-ordered association
list; lookup returns the first binding. -/
abbrev PyDict := List (String × PyVal)

/-- `d.get(k)`: the stored value, or Python `None` when the key is
absent. -/
def dictGet (d : PyDict) (k : String) : PyVal := (d.lookup k).getD PyVal.null

/-- `d.setdefault(k, v)`: keep `d` unchanged when `k` is present, else
append the binding `(k, v)` at the end (dicts preserve insertion
order). -/
def dictSetdefault (d : PyDict) (k : String) (v : PyVal) : PyDict :=
  if (d.lookup k).isSome then d else d ++ [(k, v)]

/-- The `"usage"` entry of the serialised response: absent, present but
not a dict (the `isinstance(usage, dict)` guard fails), or a dict. -/
inductive UsageField where
  | absent
  | nonDict (v : PyVal)
  | dict (d : PyDict)
deriving DecidableEq, Repr

/-- The serialised response (`response.model_dump(mode="json")`), split
into its `"usage"` entry and the remaining fields, which
`response_to_dict` never touches. -/
structure ResponseDict where
  usage : UsageField
  rest : PyDict
deriving DecidableEq, Repr

/-- The usage normalisation inside `response_to_dict`: read
`input_tokens` and `output_tokens` with `.get`, then `setdefault` the
conventional `prompt_tokens` and `completion_tokens` keys from them. -/
def normalizeUsage (d : PyDict) : PyDict :=
  let prompt := dictGet d "input_tokens"
  let completion := dictGet d "output_tokens"
  dictSetdefault (dictSetdefault d "prompt_tokens" prompt)
    "completion_tokens" completion

/-- `response_to_dict` from `llm_client.py`, acting on the serialised
form: normalise the usage sub-dict when it is a dict, touch nothing
else. -/
def response_to_dict (r : ResponseDict) : ResponseDict :=
  match r.usage with
  | UsageField.dict d => { r with usage := UsageField.dict (normalizeUsage d) }
  | _ => r

/-- The process environment, as an association list from variable names
to values (a variable set to `""` is distinct from an unset one). -/
abbrev Env := List (String × String)

/-- `os.environ.get(k)` / `os.getenv(k)`. -/
def envGet (env : Env) (k : String) : Option String := env.lookup k

/-- `os.getenv(k, default)`: the default applies only when the variable
is unset. -/
def envGetD (env : Env) (k v : String) : String := (envGet env k).getD v

/-- The constructor arguments the factories hand to `OpenAI(...)`:
credential, base URL and the optional `default_headers` mapping. -/
structure OpenAIClient where
  api_key : String
  base_url : String
  default_headers : Option (List (String × String))
deriving DecidableEq, Repr

/-- `_build_default_headers` from `llm_client.py`: attach `HTTP-Referer`
from `OPENROUTER_HTTP_REFERER` and `X-Title` from `OPENROUTER_TITLE or
OPENROUTER_X_TITLE` when truthy, and return `None` (`headers or None`)
instead of an empty mapping. -/
def _build_default_headers (env : Env) : Option (List (String × String)) :=
  let referer := envGet env "OPENROUTER_HTTP_REFERER"
  let headers₁ : List (String × String) :=
    if pyTruthy referer then [("HTTP-Referer", referer.getD "")] else []
  let title := pyOr (envGet env "OPENROUTER_TITLE") (envGet env "OPENROUTER_X_TITLE")
  let headers₂ :=
    if pyTruthy title then headers₁ ++ [("X-Title", title.getD "")] else headers₁
  if headers₂.isEmpty then none else some headers₂

/-- The message of the `RuntimeError` raised by `get_llm_client` when the
credential is unset or empty (the two adjacent Python string literals,
concatenated). -/
def llmKeyErrorMsg : String :=
  "OPENROUTER_API_KEY is not set. Configure your OpenRouter API key in the environment before running the pipeline."

/-- `get_llm_client` from `llm_client.py`, the function wrapped by
`lru_cache`: fail when `OPENROUTER_API_KEY` is falsy, else build the
client from the base URL (with its default) and the optional headers. -/
def get_llm_client (env : Env) : Except String OpenAIClient :=
  let api_key := envGet env "OPENROUTER_API_KEY"
  if pyTruthy api_key then
    Except.ok
      { api_key := api_key.getD ""
        base_url := envGetD env "OPENROUTER_BASE_URL" "https://openrouter.ai/api/v1"
        default_headers := _build_default_headers env }
  else Except.error llmKeyErrorMsg

/-- The message of the `EnvironmentError` raised by
`get_openrouter_client` when the credential is unset or empty. -/
def orKeyErrorMsg : String :=
  "OPENROUTER_API_KEY must be set to use the OpenRouter client."

/-- `_optional_header` from `openrouter_client.py`: append the header
when the environment variable is truthy. -/
def _optional_header (env : Env) (name header : String)
    (headers : List (String × String)) : List (String × String) :=
  if pyTruthy (envGet env name) then
    headers ++ [(header, (envGet env name).getD "")]
  else headers

/-- The `default_headers` dict built by `get_openrouter_client`: always a
dict, possibly empty. -/
def openrouter_default_headers (env : Env) : List (String × String) :=
  _optional_header env "OPENROUTER_APP_NAME" "X-Title"
    (_optional_header env "OPENROUTER_REFERER" "HTTP-Referer" [])

/-- `get_openrouter_client` from `openrouter_client.py`, the function
wrapped by `lru_cache(maxsize=1)`: fail when `OPENROUTER_API_KEY` is
falsy, else build the client, always passing a headers dict. -/
def get_openrouter_client (env : Env) : Except String OpenAIClient :=
  let api_key := envGet env "OPENROUTER_API_KEY"
  if pyTruthy api_key then
    Except.ok
      { api_key := api_key.getD ""
        base_url := envGetD env "OPENROUTER_BASE_URL" "https://openrouter.ai/api/v1"
        default_headers := some (openrouter_default_headers env) }
  else Except.error orKeyErrorMsg

/-- One call of an `lru_cache`-wrapped zero-argument factory: return the
cached value when one is present; otherwise run the factory against the
current environment, caching the result only on success (CPython's
`lru_cache` does not cache a raised exception). -/
def cachedCall (factory : Env → Except String OpenAIClient) (env : Env)
    (cache : Option OpenAIClient) :
    Except String OpenAIClient × Option OpenAIClient :=
  match cache with
  | some c => (Except.ok c, some c)
  | none =>
    match factory env with
    | Except.ok c => (Except.ok c, some c)
    | Except.error e => (Except.error e, none)

/-- A sequence of calls of the cached factory, each possibly seeing a
different environment, threading the cache. -/
def cachedCalls (factory : Env → Except String OpenAIClient) :
    List Env → Option OpenAIClient →
    List (Except String OpenAIClient) × Option OpenAIClient
  | [], cache => ([], cache)
  | e :: es, cache =>
    let r := cachedCall factory e cache
    let rest := cachedCalls factory es r.2
    (r.1 :: rest.1, rest.2)

/-- The value of header `k` in an optional header mapping (`none` both
when the mapping is absent and when the header is missing). -/
def headerLookup (h : Option (List (String × String))) (k : String) :
    Option String :=
  (h.getD []).lookup k

lemma splitMessages_fst (messages : List Message) :
    (splitMessages messages).1 = systemContents messages := by
  induction messages with
  | nil => rfl
  | cons m rest ih =>
    by_cases h : m.roleD = "system" <;>
      simp [splitMessages, systemContents, h, List.filter_cons] at ih ⊢ <;>
      simpa [systemContents] using ih

lemma splitMessages_snd (messages : List Message) :
    (splitMessages messages).2 = nonSystemMessages messages := by
  induction messages with
  | nil => rfl
  | cons m rest ih =>
    by_cases h : m.roleD = "system" <;>
      simp [splitMessages, nonSystemMessages, h, List.filter_cons] at ih ⊢ <;>
      simpa [nonSystemMessages] using ih

lemma content_foldl_eq (cs : List ContentItem) (parts : List String) :
    cs.foldl (fun ps c =>
        if c.type = some "output_text" then ps ++ [c.text.getD ""] else ps)
      parts =
    parts ++ cs.filterMap
      (fun c => if c.type = some "output_text" then some (c.text.getD "") else none) := by
  induction cs generalizing parts with
  | nil => simp
  | cons c rest ih =>
    by_cases h : c.type = some "output_text" <;> simp [h, ih]

lemma output_foldl_eq (items : List OutputItem) (parts : List String) :
    items.foldl (fun parts item =>
        if item.type ≠ some "message" then parts
        else (pyListD item.content).foldl (fun ps c =>
          if c.type = some "output_text" then ps ++ [c.text.getD ""] else ps)
          parts) parts =
    parts ++ (items.map messageTexts).flatten := by
  induction items generalizing parts with
  | nil => simp
  | cons item rest ih =>
    rw [List.foldl_cons, ih]
    by_cases h : item.type = some "message"
    · simp [h, content_foldl_eq, messageTexts]
    · simp [h, messageTexts]

lemma assoc_lookup_append {β : Type} (d₁ d₂ : List (String × β)) (k : String) :
    (d₁ ++ d₂).lookup k = ((d₁.lookup k).orElse fun _ => d₂.lookup k) := by
  induction d₁ with
  | nil => simp
  | cons p t ih =>
    obtain ⟨a, b⟩ := p
    by_cases h : k = a
    · simp [List.lookup, h, ih]
    · have hb : (k == a) = false := beq_eq_false_iff_ne.mpr h
      simp [List.lookup, hb, ih]

lemma lookup_setdefault_self (d : PyDict) (k : String) (v : PyVal) :
    (dictSetdefault d k v).lookup k = some ((d.lookup k).getD v) := by
  unfold dictSetdefault
  cases h : d.lookup k with
  | some w => simp [h]
  | none => simp [h, assoc_lookup_append, List.lookup]

lemma lookup_setdefault_ne (d : PyDict) (k k' : String) (v : PyVal)
    (h : k' ≠ k) :
    (dictSetdefault d k v).lookup k' = d.lookup k' := by
  unfold dictSetdefault
  by_cases hs : (d.lookup k).isSome
  · simp [hs]
  · simp only [hs, if_false, Bool.false_eq_true]
    rw [assoc_lookup_append]
    cases hk : d.lookup k' with
    | some w => simp
    | none =>
      have hb : (k' == k) = false := beq_eq_false_iff_ne.mpr h
      simp [List.lookup, hb]

lemma pyTruthy_eq_true_iff (o : Option String) :
    pyTruthy o = true ↔ ∃ t, o = some t ∧ t ≠ "" := by
  cases o with
  | none => simp [pyTruthy]
  | some t => simp [pyTruthy]

lemma pyOr_truthy (a b : Option String) (h : pyTruthy a = true) :
    pyOr a b = a := by
  simp [pyOr, h]

lemma pyOr_falsy (a b : Option String) (h : pyTruthy a = false) :
    pyOr a b = b := by
  simp [pyOr, h]

/-- Normal form of `_build_default_headers`: the referer part followed by
the title part, wrapped in `some` unless both are empty. -/
def buildHeadersList (env : Env) : List (String × String) :=
  (if pyTruthy (envGet env "OPENROUTER_HTTP_REFERER") then
    [("HTTP-Referer", (envGet env "OPENROUTER_HTTP_REFERER").getD "")] else []) ++
  (if pyTruthy (pyOr (envGet env "OPENROUTER_TITLE")
      (envGet env "OPENROUTER_X_TITLE")) then
    [("X-Title", (pyOr (envGet env "OPENROUTER_TITLE")
      (envGet env "OPENROUTER_X_TITLE")).getD "")] else [])

lemma build_headers_shape (env : Env) :
    _build_default_headers env =
      (if (buildHeadersList env).isEmpty then none
       else some (buildHeadersList env)) := by
  unfold _build_default_headers buildHeadersList
  by_cases h1 : pyTruthy (envGet env "OPENROUTER_HTTP_REFERER") <;>
    by_cases h2 : pyTruthy (pyOr (envGet env "OPENROUTER_TITLE")
      (envGet env "OPENROUTER_X_TITLE")) <;>
    simp [h1, h2]

lemma build_headers_none (env : Env)
    (h1 : pyTruthy (envGet env "OPENROUTER_HTTP_REFERER") = false)
    (h2 : pyTruthy (pyOr (envGet env "OPENROUTER_TITLE")
      (envGet env "OPENROUTER_X_TITLE")) = false) :
    _build_default_headers env = none := by
  rw [build_headers_shape]
  simp [buildHeadersList, h1, h2]

lemma build_headers_referer_value (env : Env)
    (h1 : pyTruthy (envGet env "OPENROUTER_HTTP_REFERER") = true) :
    headerLookup (_build_default_headers env) "HTTP-Referer" =
      envGet env "OPENROUTER_HTTP_REFERER" := by
  obtain ⟨r, hr, -⟩ := (pyTruthy_eq_true_iff _).mp h1
  rw [build_headers_shape]
  by_cases h2 : pyTruthy (pyOr (envGet env "OPENROUTER_TITLE")
      (envGet env "OPENROUTER_X_TITLE")) = true
  · simp only [buildHeadersList, h1, h2, if_true]
    simp [headerLookup, List.lookup, hr]
  · rw [Bool.not_eq_true] at h2
    simp only [buildHeadersList, h1, h2, if_true, Bool.false_eq_true, if_false]
    simp [headerLookup, List.lookup, hr]

lemma build_headers_x_title_value (env : Env)
    (h2 : pyTruthy (pyOr (envGet env "OPENROUTER_TITLE")
      (envGet env "OPENROUTER_X_TITLE")) = true) :
    headerLookup (_build_default_headers env) "X-Title" =
      pyOr (envGet env "OPENROUTER_TITLE") (envGet env "OPENROUTER_X_TITLE") := by
  obtain ⟨t, ht, -⟩ := (pyTruthy_eq_true_iff _).mp h2
  rw [build_headers_shape]
  have hb : (("X-Title" : String) == "HTTP-Referer") = false := by decide
  by_cases h1 : pyTruthy (envGet env "OPENROUTER_HTTP_REFERER") = true
  · simp only [buildHeadersList, h1, h2, if_true]
    simp [headerLookup, List.lookup, hb, ht]
  · rw [Bool.not_eq_true] at h1
    simp only [buildHeadersList, h1, h2, if_true, Bool.false_eq_true, if_false]
    simp [headerLookup, List.lookup, ht]

lemma build_headers_x_title_none (env : Env)
    (h2 : pyTruthy (pyOr (envGet env "OPENROUTER_TITLE")
      (envGet env "OPENROUTER_X_TITLE")) = false) :
    headerLookup (_build_default_headers env) "X-Title" = none := by
  rw [build_headers_shape]
  have hb : (("X-Title" : String) == "HTTP-Referer") = false := by decide
  by_cases h1 : pyTruthy (envGet env "OPENROUTER_HTTP_REFERER") = true
  · simp only [buildHeadersList, h1, h2, if_true, Bool.false_eq_true, if_false]
    simp [headerLookup, List.lookup, hb]
  · rw [Bool.not_eq_true] at h1
    simp only [buildHeadersList, h1, h2, Bool.false_eq_true, if_false]
    simp [headerLookup, List.lookup]

lemma openrouter_headers_shape (env : Env) :
    openrouter_default_headers env =
      (if pyTruthy (envGet env "OPENROUTER_REFERER") then
        [("HTTP-Referer", (envGet env "OPENROUTER_REFERER").getD "")] else []) ++
      (if pyTruthy (envGet env "OPENROUTER_APP_NAME") then
        [("X-Title", (envGet env "OPENROUTER_APP_NAME").getD "")] else []) := by
  unfold openrouter_default_headers _optional_header
  by_cases h1 : pyTruthy (envGet env "OPENROUTER_REFERER") <;>
    by_cases h2 : pyTruthy (envGet env "OPENROUTER_APP_NAME") <;>
    simp [h1, h2]

end LLMClient

namespace LLMClient

/-- C1: For every list of role/content messages, `prepare_responses_messages`
returns as first component the blank-line-separated concatenation of the
contents of the system-role messages in input order (`none` when there is
no system message), and as second component the non-system messages in
their original relative order (the placeholder only when there are none);
in particular on `[system "A", system "B", user "Q"]` it yields
instructions `"A\n\nB"` and conversation `[user "Q"]`. -/
theorem prepare_splits_system_and_conversation (messages : List Message) :
    (prepare_responses_messages messages).1 =
      (if (systemContents messages).isEmpty then none
       else some (String.intercalate "\n\n" (systemContents messages))) ∧
    (prepare_responses_messages messages).2 =
      (if (nonSystemMessages messages).isEmpty then [⟨"user", ""⟩]
       else nonSystemMessages messages) ∧
    prepare_responses_messages
        [⟨some "system", some "A"⟩, ⟨some "system", some "B"⟩,
         ⟨some "user", some "Q"⟩] =
      (some "A\n\nB", [⟨"user", "Q"⟩]) := by
  refine ⟨?_, ?_, ?_⟩
  · simp [prepare_responses_messages, splitMessages_fst]
  · simp [prepare_responses_messages, splitMessages_snd]
  · rfl

/-- C2: when every message of the input has role `"system"` (in particular
on the empty list), the returned conversation is exactly the placeholder
`[user ""]`; and for every input the conversation is non-empty. -/
theorem prepare_conversation_placeholder_and_nonempty
    (messages : List Message)
    (hall : ∀ m ∈ messages, m.roleD = "system") :
    (prepare_responses_messages messages).2 = [⟨"user", ""⟩] ∧
    ∀ ms : List Message, (prepare_responses_messages ms).2 ≠ [] := by
  constructor
  · have hempty : nonSystemMessages messages = [] := by
      simp only [nonSystemMessages, List.map_eq_nil_iff, List.filter_eq_nil_iff]
      intro m hm
      simpa using hall m hm
    simp [prepare_responses_messages, splitMessages_snd, hempty]
  · intro ms
    rw [prepare_responses_messages]
    by_cases h : (splitMessages ms).2.isEmpty
    · simp [h]
    · simp only [h, if_neg]
      simpa [List.isEmpty_iff] using h

/-- Witness for C2 at the concrete inputs `[system "A"]` and `[]`. -/
theorem prepare_conversation_placeholder_witness :
    (prepare_responses_messages [⟨some "system", some "A"⟩]).2 =
      [⟨"user", ""⟩] ∧
    (prepare_responses_messages []).2 ≠ [] := by
  have h := prepare_conversation_placeholder_and_nonempty
    [⟨some "system", some "A"⟩] (by intro m hm; simp at hm; simp [hm, Message.roleD])
  exact ⟨h.1, h.2 []⟩

/-- C3 counterexample: a response that exposes the `output_text` field
with the empty string while its output items carry the text `"hi"`.  The
code tests the field for truthiness, so it does not return the exposed
empty `output_text` verbatim but scans the output and yields `"hi"`. -/
theorem extract_text_empty_output_text_counterexample :
    (PyResponse.mk (some "")
        (some [⟨some "message", some [⟨some "output_text", some "hi"⟩]⟩])).output_text
      = some "" ∧
    extract_response_text
      (PyResponse.mk (some "")
        (some [⟨some "message", some [⟨some "output_text", some "hi"⟩]⟩]))
      = "hi" ∧
    extract_response_text
      (PyResponse.mk (some "")
        (some [⟨some "message", some [⟨some "output_text", some "hi"⟩]⟩]))
      ≠ "" := by
  refine ⟨rfl, rfl, ?_⟩
  decide

/-- C3 amended: if the response exposes a non-empty (truthy)
`output_text`, `extract_response_text` returns it verbatim; otherwise it
returns the concatenation, in encounter order, of the text of every
content item tagged `"output_text"` inside every output item tagged
`"message"`, and in particular the empty string when no such content
exists. -/
theorem extract_text_truthy_or_scan (r : PyResponse) :
    (pyTruthy r.output_text = true →
      extract_response_text r = r.output_text.getD "") ∧
    (pyTruthy r.output_text = false →
      extract_response_text r = String.join (outputTexts r)) ∧
    (pyTruthy r.output_text = false → outputTexts r = [] →
      extract_response_text r = "") := by
  have hscan : pyTruthy r.output_text = false →
      extract_response_text r = String.join (outputTexts r) := by
    intro h
    unfold extract_response_text
    rw [h, output_foldl_eq]
    simp [outputTexts]
  refine ⟨?_, hscan, ?_⟩
  · intro h
    simp [extract_response_text, h]
  · intro h hempty
    rw [hscan h, hempty]
    rfl

/-- Witness for C3's amended theorem at two concrete responses: one with
a truthy `output_text`, one without any `output_text` whose single
message item carries the text `"hi"`. -/
theorem extract_text_truthy_or_scan_witness :
    extract_response_text (PyResponse.mk (some "X") none) = "X" ∧
    extract_response_text
      (PyResponse.mk none
        (some [⟨some "message", some [⟨some "output_text", some "hi"⟩]⟩]))
      = "hi" := by
  constructor
  · exact (extract_text_truthy_or_scan (PyResponse.mk (some "X") none)).1 (by decide)
  · have h := (extract_text_truthy_or_scan
      (PyResponse.mk none
        (some [⟨some "message", some [⟨some "output_text", some "hi"⟩]⟩]))).2.1
      (by decide)
    rw [h]
    rfl

/-- C4: when the serialised response carries a usage dict,
`response_to_dict` yields a usage dict in which `prompt_tokens` and
`completion_tokens` are present, set from `input_tokens` and
`output_tokens` (via `.get`) exactly when the conventional key was
absent, never overwriting an existing conventional value, and leaving
every other key and the rest of the response untouched; in particular
usage `[input_tokens 3, output_tokens 5]` gains `prompt_tokens = 3` and
`completion_tokens = 5` alongside the original fields. -/
theorem response_to_dict_usage_normalisation (r : ResponseDict) (d : PyDict)
    (h : r.usage = UsageField.dict d) :
    ((response_to_dict r).usage = UsageField.dict (normalizeUsage d) ∧
     (response_to_dict r).rest = r.rest ∧
     ((normalizeUsage d).lookup "prompt_tokens").isSome ∧
     ((normalizeUsage d).lookup "completion_tokens").isSome ∧
     (d.lookup "prompt_tokens" = none →
       (normalizeUsage d).lookup "prompt_tokens" = some (dictGet d "input_tokens")) ∧
     (∀ v, d.lookup "prompt_tokens" = some v →
       (normalizeUsage d).lookup "prompt_tokens" = some v) ∧
     (d.lookup "completion_tokens" = none →
       (normalizeUsage d).lookup "completion_tokens" = some (dictGet d "output_tokens")) ∧
     (∀ v, d.lookup "completion_tokens" = some v →
       (normalizeUsage d).lookup "completion_tokens" = some v) ∧
     (∀ k, k ≠ "prompt_tokens" → k ≠ "completion_tokens" →
       (normalizeUsage d).lookup k = d.lookup k)) ∧
    normalizeUsage [("input_tokens", PyVal.int 3), ("output_tokens", PyVal.int 5)] =
      [("input_tokens", PyVal.int 3), ("output_tokens", PyVal.int 5),
       ("prompt_tokens", PyVal.int 3), ("completion_tokens", PyVal.int 5)] := by
  have hpc : ("prompt_tokens" : String) ≠ "completion_tokens" := by decide
  have hprompt : (normalizeUsage d).lookup "prompt_tokens" =
      some ((d.lookup "prompt_tokens").getD (dictGet d "input_tokens")) := by
    unfold normalizeUsage
    rw [lookup_setdefault_ne _ _ _ _ hpc, lookup_setdefault_self]
  have hcompletion : (normalizeUsage d).lookup "completion_tokens" =
      some ((d.lookup "completion_tokens").getD (dictGet d "output_tokens")) := by
    unfold normalizeUsage
    rw [lookup_setdefault_self]
    cases hk : (dictSetdefault d "prompt_tokens" (dictGet d "input_tokens")).lookup
        "completion_tokens" with
    | some w =>
      rw [lookup_setdefault_ne _ _ _ _ hpc.symm] at hk
      simp [hk]
    | none =>
      rw [lookup_setdefault_ne _ _ _ _ hpc.symm] at hk
      simp [hk]
  refine ⟨⟨?_, ?_, ?_, ?_, ?_, ?_, ?_, ?_, ?_⟩, by rfl⟩
  · simp [response_to_dict, h]
  · simp [response_to_dict, h]
  · simp [hprompt]
  · simp [hcompletion]
  · intro hnone; simp [hprompt, hnone]
  · intro v hv; simp [hprompt, hv]
  · intro hnone; simp [hcompletion, hnone]
  · intro v hv; simp [hcompletion, hv]
  · intro k hk1 hk2
    unfold normalizeUsage
    rw [lookup_setdefault_ne _ _ _ _ hk2, lookup_setdefault_ne _ _ _ _ hk1]

/-- Witness for C4 at the concrete usage dict
`[input_tokens 3, output_tokens 5]` inside an otherwise empty response. -/
theorem response_to_dict_usage_normalisation_witness :
    (response_to_dict
        ⟨UsageField.dict [("input_tokens", PyVal.int 3), ("output_tokens", PyVal.int 5)], []⟩).usage =
      UsageField.dict
        [("input_tokens", PyVal.int 3), ("output_tokens", PyVal.int 5),
         ("prompt_tokens", PyVal.int 3), ("completion_tokens", PyVal.int 5)] := by
  have h := response_to_dict_usage_normalisation
    ⟨UsageField.dict [("input_tokens", PyVal.int 3), ("output_tokens", PyVal.int 5)], []⟩
    [("input_tokens", PyVal.int 3), ("output_tokens", PyVal.int 5)] rfl
  rw [h.1.1, h.2]

/-- C5: each factory fails at construction time, with a literal message
instructing the operator to set `OPENROUTER_API_KEY`, exactly when that
credential is falsy in the environment; when it is truthy a client is
returned, so the absent credential is the only failure mode. -/
theorem client_construction_requires_credential (env : Env) :
    (pyTruthy (envGet env "OPENROUTER_API_KEY") = false →
      get_llm_client env = Except.error llmKeyErrorMsg ∧
      get_openrouter_client env = Except.error orKeyErrorMsg) ∧
    (pyTruthy (envGet env "OPENROUTER_API_KEY") = true →
      (∃ c, get_llm_client env = Except.ok c) ∧
      (∃ c, get_openrouter_client env = Except.ok c)) ∧
    llmKeyErrorMsg =
      "OPENROUTER_API_KEY is not set. Configure your OpenRouter API key in the environment before running the pipeline." ∧
    orKeyErrorMsg = "OPENROUTER_API_KEY must be set to use the OpenRouter client." := by
  refine ⟨fun h => ⟨?_, ?_⟩, fun h =>
    ⟨⟨⟨(envGet env "OPENROUTER_API_KEY").getD "",
       envGetD env "OPENROUTER_BASE_URL" "https://openrouter.ai/api/v1",
       _build_default_headers env⟩, ?_⟩,
     ⟨⟨(envGet env "OPENROUTER_API_KEY").getD "",
       envGetD env "OPENROUTER_BASE_URL" "https://openrouter.ai/api/v1",
       some (openrouter_default_headers env)⟩, ?_⟩⟩, rfl, rfl⟩ <;>
    simp [get_llm_client, get_openrouter_client, h]

/-- Witness for C5: the empty environment fails with both messages and a
set credential yields a client. -/
theorem client_construction_requires_credential_witness :
    (get_llm_client [] = Except.error llmKeyErrorMsg ∧
     get_openrouter_client [] = Except.error orKeyErrorMsg) ∧
    (∃ c, get_llm_client [("OPENROUTER_API_KEY", "k")] = Except.ok c) := by
  refine ⟨(client_construction_requires_credential []).1 rfl, ?_⟩
  exact ((client_construction_requires_credential
    [("OPENROUTER_API_KEY", "k")]).2.1 (by decide)).1

/-- C6: once a first invocation of the cached factory succeeded and
cached the client `c`, every sequence of later invocations — whatever
environments they observe — returns exactly `c` and leaves the cache
unchanged, so the client is constructed at most once per process. -/
theorem cached_factory_returns_cached_instance
    (factory : Env → Except String OpenAIClient) (env₀ : Env)
    (c : OpenAIClient)
    (h : cachedCall factory env₀ none = (Except.ok c, some c)) :
    (cachedCall factory env₀ none).1 = Except.ok c ∧
    ∀ envs : List Env,
      (cachedCalls factory envs (some c)).1 = envs.map (fun _ => Except.ok c) ∧
      (cachedCalls factory envs (some c)).2 = some c := by
  refine ⟨by rw [h], ?_⟩
  intro envs
  induction envs with
  | nil => exact ⟨rfl, rfl⟩
  | cons e es ih => simpa [cachedCalls, cachedCall] using ih

/-- Witness for C6: after a successful first call of the cached
`get_llm_client`, two later calls under different environments both
return the cached client. -/
theorem cached_factory_returns_cached_instance_witness :
    (cachedCalls get_llm_client [[], [("OPENROUTER_API_KEY", "other")]]
        (some ⟨"k", "https://openrouter.ai/api/v1", none⟩)).1 =
      [Except.ok ⟨"k", "https://openrouter.ai/api/v1", none⟩,
       Except.ok ⟨"k", "https://openrouter.ai/api/v1", none⟩] := by
  have h := cached_factory_returns_cached_instance get_llm_client
    [("OPENROUTER_API_KEY", "k")] ⟨"k", "https://openrouter.ai/api/v1", none⟩
    (by rfl)
  rw [(h.2 [[], [("OPENROUTER_API_KEY", "other")]]).1]
  rfl

/-- C10: a credential set to the empty string is treated exactly like an
absent one: both factories fail with the same construction-time errors
they produce on an environment without the credential. -/
theorem empty_api_key_treated_as_absent (env env' : Env)
    (h : envGet env "OPENROUTER_API_KEY" = some "")
    (h' : envGet env' "OPENROUTER_API_KEY" = none) :
    get_llm_client env = Except.error llmKeyErrorMsg ∧
    get_openrouter_client env = Except.error orKeyErrorMsg ∧
    get_llm_client env = get_llm_client env' ∧
    get_openrouter_client env = get_openrouter_client env' := by
  have ht : pyTruthy (envGet env "OPENROUTER_API_KEY") = false := by
    rw [h]; rfl
  have ht' : pyTruthy (envGet env' "OPENROUTER_API_KEY") = false := by
    rw [h']; rfl
  refine ⟨?_, ?_, ?_, ?_⟩ <;>
    simp [get_llm_client, get_openrouter_client, ht, ht']

/-- Witness for C10 at `OPENROUTER_API_KEY=""` versus the empty
environment. -/
theorem empty_api_key_treated_as_absent_witness :
    get_llm_client [("OPENROUTER_API_KEY", "")] = Except.error llmKeyErrorMsg ∧
    get_llm_client [("OPENROUTER_API_KEY", "")] = get_llm_client [] := by
  have h := empty_api_key_treated_as_absent [("OPENROUTER_API_KEY", "")] []
    rfl rfl
  exact ⟨h.1, h.2.2.1⟩

/-- C7 counterexample: with only the credential set,
`get_openrouter_client` passes an empty header mapping (`some []`) to the
client rather than omitting the header map; the claim's "no header
mapping, not an empty one, is passed" fails for this factory. -/
theorem openrouter_passes_empty_header_map_counterexample :
    get_openrouter_client [("OPENROUTER_API_KEY", "k")] =
      Except.ok ⟨"k", "https://openrouter.ai/api/v1", some []⟩ ∧
    some ([] : List (String × String)) ≠ none := by
  exact ⟨rfl, by decide⟩

/-- C7 amended: `get_llm_client` omits the header map entirely (`None`,
not an empty mapping) when neither optional header variable yields a
truthy value, and attaches the corresponding header whenever one does;
`get_openrouter_client` instead always passes a header mapping, which is
empty when neither of its variables is truthy and carries the
corresponding headers otherwise. -/
theorem default_headers_omitted_or_attached (env : Env) :
    (pyTruthy (envGet env "OPENROUTER_HTTP_REFERER") = false →
     pyTruthy (pyOr (envGet env "OPENROUTER_TITLE")
       (envGet env "OPENROUTER_X_TITLE")) = false →
     _build_default_headers env = none) ∧
    (pyTruthy (envGet env "OPENROUTER_HTTP_REFERER") = true →
      headerLookup (_build_default_headers env) "HTTP-Referer" =
        envGet env "OPENROUTER_HTTP_REFERER") ∧
    (pyTruthy (pyOr (envGet env "OPENROUTER_TITLE")
       (envGet env "OPENROUTER_X_TITLE")) = true →
      headerLookup (_build_default_headers env) "X-Title" =
        pyOr (envGet env "OPENROUTER_TITLE") (envGet env "OPENROUTER_X_TITLE")) ∧
    (pyTruthy (envGet env "OPENROUTER_API_KEY") = true →
      get_openrouter_client env =
        Except.ok ⟨(envGet env "OPENROUTER_API_KEY").getD "",
          envGetD env "OPENROUTER_BASE_URL" "https://openrouter.ai/api/v1",
          some (openrouter_default_headers env)⟩) ∧
    (pyTruthy (envGet env "OPENROUTER_REFERER") = false →
     pyTruthy (envGet env "OPENROUTER_APP_NAME") = false →
     openrouter_default_headers env = []) ∧
    (pyTruthy (envGet env "OPENROUTER_REFERER") = true →
      (openrouter_default_headers env).lookup "HTTP-Referer" =
        envGet env "OPENROUTER_REFERER") ∧
    (pyTruthy (envGet env "OPENROUTER_APP_NAME") = true →
      (openrouter_default_headers env).lookup "X-Title" =
        envGet env "OPENROUTER_APP_NAME") := by
  refine ⟨build_headers_none env, build_headers_referer_value env,
    build_headers_x_title_value env, ?_, ?_, ?_, ?_⟩
  · intro h
    simp [get_openrouter_client, h]
  · intro h1 h2
    rw [openrouter_headers_shape]
    simp [h1, h2]
  · intro h1
    obtain ⟨r, hr, -⟩ := (pyTruthy_eq_true_iff _).mp h1
    rw [openrouter_headers_shape]
    by_cases h2 : pyTruthy (envGet env "OPENROUTER_APP_NAME") = true
    · simp only [h1, h2, if_true]
      simp [List.lookup, hr]
    · rw [Bool.not_eq_true] at h2
      simp only [h1, h2, if_true, Bool.false_eq_true, if_false]
      simp [List.lookup, hr]
  · intro h2
    obtain ⟨t, ht, -⟩ := (pyTruthy_eq_true_iff _).mp h2
    rw [openrouter_headers_shape]
    have hb : (("X-Title" : String) == "HTTP-Referer") = false := by decide
    by_cases h1 : pyTruthy (envGet env "OPENROUTER_REFERER") = true
    · simp only [h1, h2, if_true]
      simp [List.lookup, hb, ht]
    · rw [Bool.not_eq_true] at h1
      simp only [h1, h2, if_true, Bool.false_eq_true, if_false]
      simp [List.lookup, ht]

/-- Witness for C7's amended theorem: with nothing set, `get_llm_client`
builds no header map; with referer and title set, both headers are
attached; `get_openrouter_client` with only the credential passes the
empty mapping. -/
theorem default_headers_omitted_or_attached_witness :
    _build_default_headers [] = none ∧
    headerLookup
        (_build_default_headers
          [("OPENROUTER_HTTP_REFERER", "https://r.example"),
           ("OPENROUTER_TITLE", "T")]) "HTTP-Referer" = some "https://r.example" ∧
    get_openrouter_client [("OPENROUTER_API_KEY", "k")] =
      Except.ok ⟨"k", "https://openrouter.ai/api/v1", some []⟩ := by
  refine ⟨(default_headers_omitted_or_attached []).1 rfl rfl, ?_, ?_⟩
  · exact (default_headers_omitted_or_attached
      [("OPENROUTER_HTTP_REFERER", "https://r.example"),
       ("OPENROUTER_TITLE", "T")]).2.1 (by decide)
  · exact (default_headers_omitted_or_attached
      [("OPENROUTER_API_KEY", "k")]).2.2.2.1 (by decide)

/-- C8 counterexample: with `OPENROUTER_TITLE` unset and
`OPENROUTER_X_TITLE` set to the empty string, no `X-Title` header is
attached at all, so the header value does not equal the (set) value of
`OPENROUTER_X_TITLE`. -/
theorem x_title_empty_variable_counterexample :
    envGet [("OPENROUTER_X_TITLE", "")] "OPENROUTER_X_TITLE" = some "" ∧
    envGet [("OPENROUTER_X_TITLE", "")] "OPENROUTER_TITLE" = none ∧
    headerLookup (_build_default_headers [("OPENROUTER_X_TITLE", "")])
      "X-Title" = none ∧
    (none : Option String) ≠ some "" := by
  exact ⟨rfl, rfl, rfl, by decide⟩

/-- C8 amended: the `X-Title` header value equals `OPENROUTER_TITLE`
whenever that variable is set to a non-empty value; otherwise it equals
`OPENROUTER_X_TITLE` whenever that variable is set to a non-empty value;
when neither is, no `X-Title` header is attached. -/
theorem x_title_first_variable_wins (env : Env) :
    (pyTruthy (envGet env "OPENROUTER_TITLE") = true →
      headerLookup (_build_default_headers env) "X-Title" =
        envGet env "OPENROUTER_TITLE") ∧
    (pyTruthy (envGet env "OPENROUTER_TITLE") = false →
     pyTruthy (envGet env "OPENROUTER_X_TITLE") = true →
      headerLookup (_build_default_headers env) "X-Title" =
        envGet env "OPENROUTER_X_TITLE") ∧
    (pyTruthy (envGet env "OPENROUTER_TITLE") = false →
     pyTruthy (envGet env "OPENROUTER_X_TITLE") = false →
      headerLookup (_build_default_headers env) "X-Title" = none) := by
  refine ⟨?_, ?_, ?_⟩
  · intro h
    have hor : pyOr (envGet env "OPENROUTER_TITLE")
        (envGet env "OPENROUTER_X_TITLE") = envGet env "OPENROUTER_TITLE" :=
      pyOr_truthy _ _ h
    rw [build_headers_x_title_value env (by rw [hor]; exact h), hor]
  · intro h h'
    have hor : pyOr (envGet env "OPENROUTER_TITLE")
        (envGet env "OPENROUTER_X_TITLE") = envGet env "OPENROUTER_X_TITLE" :=
      pyOr_falsy _ _ h
    rw [build_headers_x_title_value env (by rw [hor]; exact h'), hor]
  · intro h h'
    have hor : pyOr (envGet env "OPENROUTER_TITLE")
        (envGet env "OPENROUTER_X_TITLE") = envGet env "OPENROUTER_X_TITLE" :=
      pyOr_falsy _ _ h
    exact build_headers_x_title_none env (by rw [hor]; exact h')

/-- Witness for C8's amended theorem: when both title variables are set
non-empty, `X-Title` takes the value of `OPENROUTER_TITLE`; when only the
alternate name is set, it takes that value. -/
theorem x_title_first_variable_wins_witness :
    headerLookup
        (_build_default_headers
          [("OPENROUTER_TITLE", "A"), ("OPENROUTER_X_TITLE", "B")])
        "X-Title" = some "A" ∧
    headerLookup (_build_default_headers [("OPENROUTER_X_TITLE", "B")])
        "X-Title" = some "B" := by
  constructor
  · exact (x_title_first_variable_wins
      [("OPENROUTER_TITLE", "A"), ("OPENROUTER_X_TITLE", "B")]).1 (by decide)
  · exact (x_title_first_variable_wins
      [("OPENROUTER_X_TITLE", "B")]).2.1 rfl (by decide)

end LLMClient
